import Mathlib

/-!
Verification of the aetherscale single-host compute orchestrator against its
natural-language specification.  Each Python module that the claims depend on
is embedded shallowly: pure functions become Lean functions, stateful code
becomes explicit state passing, fallible code returns `Except`.

Embedded modules:
* `aetherscale/vpn/radvd.py`   — the IPv6 prefix allocator (`Radvd`)
* `aetherscale/networking.py`  — the network topology builder (`Iproute2Network`)
* `aetherscale/computing.py`   — the orchestrator (`ComputingHandler`, naming)
* `aetherscale/qemu/runtime.py`— the hypervisor control-channel client
* `aetherscale/api/broker.py`  — the command-dispatch boundary (`callback`)
* `aetherscale/vpn/tinc.py`    — the tinc overlay provisioner
-/

namespace Aetherscale

/-! ### Decimal rendering of natural numbers

`decimalDigits` is the shallow embedding of Python's `str(n)` for a
non-negative integer `n`: most-significant digit first, no sign, no padding. -/

/-- Decimal digit characters of `n`, most significant first; embeds Python `str(n)`. -/
def decimalDigits (n : Nat) : List Char :=
  if n < 10 then [Nat.digitChar n]
  else decimalDigits (n / 10) ++ [Nat.digitChar (n % 10)]
decreasing_by exact Nat.div_lt_self (by omega) (by omega)

/-- Python `str(n)` as a Lean `String`. -/
def decimalRepr (n : Nat) : String := ⟨decimalDigits n⟩

theorem decimalDigits_lt {n : Nat} (h : n < 10) :
    decimalDigits n = [Nat.digitChar n] := by
  rw [decimalDigits]; simp [h]

theorem decimalDigits_ge {n : Nat} (h : ¬ n < 10) :
    decimalDigits n = decimalDigits (n / 10) ++ [Nat.digitChar (n % 10)] := by
  rw [decimalDigits]; simp [h]

theorem decimalDigits_length_pos (n : Nat) : 0 < (decimalDigits n).length := by
  rw [decimalDigits]
  split
  · simp
  · simp

theorem digitChar_inj_lt {a b : Nat} (ha : a < 10) (hb : b < 10)
    (h : Nat.digitChar a = Nat.digitChar b) : a = b := by
  revert h
  interval_cases a <;> interval_cases b <;> decide

theorem decimalDigits_injective : Function.Injective decimalDigits := by
  intro m
  induction m using Nat.strong_induction_on with
  | _ m ih =>
    intro n h
    by_cases hm : m < 10 <;> by_cases hn : n < 10
    · rw [decimalDigits_lt hm, decimalDigits_lt hn] at h
      injection h with h1 _
      exact digitChar_inj_lt hm hn h1
    · rw [decimalDigits_lt hm, decimalDigits_ge hn] at h
      have hl := congrArg List.length h
      rw [List.length_singleton, List.length_append, List.length_singleton] at hl
      have := decimalDigits_length_pos (n / 10)
      omega
    · rw [decimalDigits_ge hm, decimalDigits_lt hn] at h
      have hl := congrArg List.length h
      rw [List.length_append, List.length_singleton, List.length_singleton] at hl
      have := decimalDigits_length_pos (m / 10)
      omega
    · rw [decimalDigits_ge hm, decimalDigits_ge hn] at h
      obtain ⟨h1, h2⟩ := List.append_inj' h rfl
      have hdiv : m / 10 = n / 10 :=
        ih (m / 10) (Nat.div_lt_self (by omega) (by omega)) h1
      injection h2 with h2a _
      have hmod : m % 10 = n % 10 :=
        digitChar_inj_lt (Nat.mod_lt _ (by omega)) (Nat.mod_lt _ (by omega)) h2a
      omega

theorem decimalRepr_injective : Function.Injective decimalRepr := by
  intro a b h
  exact decimalDigits_injective (congrArg String.data h)

/-! ### `aetherscale/vpn/radvd.py` — the IPv6 prefix allocator

`Radvd.__init__` validates the `/48` prefix (exactly two `:`), remembers the
prefix, starts with an empty set of assigned prefixes and truncates the
config file.  `generate_prefix` derives the next `/64` from
`len(self.assigned_prefixes)`; `add_interface` rejects a prefix already in the
set, appends a config block and records the prefix.  (The `os.chmod`
permission toggling around the file write is an OS side effect outside the
allocator state and is not modelled.) -/

/-- Error type standing for Python's `RadvdException`. -/
inductive RadvdError where
  | radvdException (msg : String)
deriving Repr, DecidableEq

/-- The template `CONFIG_BLOCK` from `radvd.py` (braces written via escapes). -/
def radvdConfigBlock : String :=
  "interface INTERFACE \x7b\n  AdvSendAdvert on;\n  MinRtrAdvInterval 3;\n  MaxRtrAdvInterval 10;\n  prefix PREFIX \x7b\n    AdvOnLink on;\n    AdvAutonomous on;\n    AdvRouterAddr off;\n  \x7d;\n\x7d;"

/-- State of the `Radvd` object: the configured `/48` prefix, the set of
assigned prefixes (a duplicate-free list, mirroring the Python `set`), and the
accumulated contents of the radvd config file. -/
structure Radvd where
  prefix48 : String
  assignedPrefixes : List String
  configFile : String
deriving Repr, DecidableEq

/-- `Radvd.__init__`: requires `prefix.count(':') == 2` and truncates the config file. -/
def Radvd.init (p : String) : Except RadvdError Radvd :=
  if p.data.count ':' ≠ 2 then
    .error (.radvdException "Prefix must be a /48 prefix")
  else
    .ok { prefix48 := p, assignedPrefixes := [], configFile := "" }

/-- `Radvd.generate_prefix`: fails once 65536 prefixes are assigned, else returns
`self.prefix + ':' + str(len(self.assigned_prefixes)) + '::/64'`. -/
def Radvd.generatePrefix (r : Radvd) : Except RadvdError String :=
  if 65536 ≤ r.assignedPrefixes.length then
    .error (.radvdException "Max number of available networks reached")
  else
    .ok (r.prefix48 ++ ":" ++ decimalRepr r.assignedPrefixes.length ++ "::/64")

/-- `Radvd.add_interface`: rejects an already-assigned prefix, else appends the
instantiated config block to the file and records the prefix in the set. -/
def Radvd.addInterface (r : Radvd) (interfaceName pfx : String) :
    Except RadvdError Radvd :=
  if pfx ∈ r.assignedPrefixes then
    .error (.radvdException ("Prefix \"" ++ pfx ++ "\" was already assigned"))
  else
    .ok { r with
      configFile := r.configFile ++ "\n\n" ++
        ((radvdConfigBlock.replace "INTERFACE" interfaceName).replace "PREFIX" pfx),
      assignedPrefixes := r.assignedPrefixes ++ [pfx] }

/-- One client call against the allocator: either a `generate_prefix()` call or
an `add_interface(interface_name, prefix)` call. -/
inductive RadvdOp where
  | gen
  | add (interfaceName pfx : String)

/-- Result of running a sequence of allocator calls: the final state, the
prefixes issued by successful `generate_prefix()` calls (in call order) and the
prefixes accepted by successful `add_interface` calls (in call order).  A call
that raises leaves the state unchanged and issues/accepts nothing. -/
structure RadvdTrace where
  state : Radvd
  issued : List String
  accepted : List String
deriving Repr, DecidableEq

/-- Run a sequence of allocator calls from state `r`. -/
def Radvd.runOps (r : Radvd) : List RadvdOp → RadvdTrace
  | [] => ⟨r, [], []⟩
  | .gen :: ops =>
    let t := Radvd.runOps r ops
    match r.generatePrefix with
    | .ok p => ⟨t.state, p :: t.issued, t.accepted⟩
    | .error _ => ⟨t.state, t.issued, t.accepted⟩
  | .add i p :: ops =>
    match r.addInterface i p with
    | .ok r' =>
      let t := Radvd.runOps r' ops
      ⟨t.state, t.issued, p :: t.accepted⟩
    | .error _ => Radvd.runOps r ops

/-- The value `generate_prefix` returns when `k` prefixes are assigned. -/
def radvdPrefixAt (p48 : String) (k : Nat) : String :=
  p48 ++ ":" ++ decimalRepr k ++ "::/64"

/-- The disciplined client loop: `n` rounds of `generate_prefix()` immediately
followed by `add_interface` on the value just generated (the discipline
`_establish_vpn` follows when every VPN request creates a new overlay).
Returns the final state and the prefixes issued, stopping early if a call raises. -/
def Radvd.genThenAdd (r : Radvd) (iface : String) : Nat → Radvd × List String
  | 0 => (r, [])
  | n + 1 =>
    match r.generatePrefix with
    | .error _ => (r, [])
    | .ok p =>
      match r.addInterface iface p with
      | .error _ => (r, [])
      | .ok r' =>
        let t := Radvd.genThenAdd r' iface n
        (t.1, p :: t.2)

theorem decimalRepr_zero : decimalRepr 0 = "0" := by
  unfold decimalRepr
  rw [decimalDigits_lt (by norm_num)]
  rfl

theorem radvdPrefixAt_injective (p48 : String) :
    Function.Injective (radvdPrefixAt p48) := by
  intro a b h
  have hd := congrArg String.data h
  simp only [radvdPrefixAt, String.data_append] at hd
  have h1 := List.append_cancel_right hd
  have h2 := List.append_cancel_left h1
  exact decimalRepr_injective (String.ext h2)

theorem addInterface_ok_assigned {r r' : Radvd} {i p : String}
    (h : r.addInterface i p = .ok r') :
    p ∉ r.assignedPrefixes ∧
    r'.assignedPrefixes = r.assignedPrefixes ++ [p] ∧
    r'.prefix48 = r.prefix48 := by
  unfold Radvd.addInterface at h
  split at h
  · cases h
  · cases h
    exact ⟨by assumption, rfl, rfl⟩

theorem runOps_assigned_mono :
    ∀ (ops : List RadvdOp) (r : Radvd) (x : String),
      x ∈ r.assignedPrefixes → x ∈ (Radvd.runOps r ops).state.assignedPrefixes := by
  intro ops
  induction ops with
  | nil => intro r x hx; exact hx
  | cons op ops ih =>
    intro r x hx
    cases op with
    | gen =>
      cases hg : r.generatePrefix with
      | ok p => simp only [Radvd.runOps, hg]; exact ih r x hx
      | error e => simp only [Radvd.runOps, hg]; exact ih r x hx
    | add i p =>
      cases ha : r.addInterface i p with
      | ok r' =>
        simp only [Radvd.runOps, ha]
        apply ih
        rw [(addInterface_ok_assigned ha).2.1]
        exact List.mem_append_left _ hx
      | error e => simp only [Radvd.runOps, ha]; exact ih r x hx

theorem runOps_accepted_fresh :
    ∀ (ops : List RadvdOp) (r : Radvd) (x : String),
      x ∈ (Radvd.runOps r ops).accepted → x ∉ r.assignedPrefixes := by
  intro ops
  induction ops with
  | nil => intro r x hx; cases hx
  | cons op ops ih =>
    intro r x hx
    cases op with
    | gen =>
      cases hg : r.generatePrefix with
      | ok p => simp only [Radvd.runOps, hg] at hx; exact ih r x hx
      | error e => simp only [Radvd.runOps, hg] at hx; exact ih r x hx
    | add i p =>
      cases ha : r.addInterface i p with
      | ok r' =>
        simp only [Radvd.runOps, ha] at hx
        obtain ⟨hfresh, hassigned, _⟩ := addInterface_ok_assigned ha
        rcases List.mem_cons.mp hx with rfl | hx
        · exact hfresh
        · intro hmem
          exact ih r' x hx (hassigned ▸ List.mem_append_left _ hmem)
      | error e => simp only [Radvd.runOps, ha] at hx; exact ih r x hx

theorem runOps_accepted_nodup :
    ∀ (ops : List RadvdOp) (r : Radvd), (Radvd.runOps r ops).accepted.Nodup := by
  intro ops
  induction ops with
  | nil => intro r; exact List.nodup_nil
  | cons op ops ih =>
    intro r
    cases op with
    | gen =>
      cases hg : r.generatePrefix with
      | ok p => simp only [Radvd.runOps, hg]; exact ih r
      | error e => simp only [Radvd.runOps, hg]; exact ih r
    | add i p =>
      cases ha : r.addInterface i p with
      | ok r' =>
        simp only [Radvd.runOps, ha]
        refine List.nodup_cons.mpr ⟨?_, ih r'⟩
        intro hmem
        obtain ⟨_, hassigned, _⟩ := addInterface_ok_assigned ha
        exact runOps_accepted_fresh ops r' p hmem
          (hassigned ▸ List.mem_append_right _ (List.mem_singleton.mpr rfl))
      | error e => simp only [Radvd.runOps, ha]; exact ih r

theorem generatePrefix_ok {r : Radvd} (h : r.assignedPrefixes.length < 65536) :
    r.generatePrefix = .ok (radvdPrefixAt r.prefix48 r.assignedPrefixes.length) := by
  unfold Radvd.generatePrefix radvdPrefixAt
  rw [if_neg (by omega)]

theorem genThenAdd_issued :
    ∀ (n k : Nat) (r : Radvd) (iface : String),
      r.assignedPrefixes = (List.range k).map (radvdPrefixAt r.prefix48) →
      k + n ≤ 65536 →
      (Radvd.genThenAdd r iface n).2 =
        (List.range' k n).map (radvdPrefixAt r.prefix48) := by
  intro n
  induction n with
  | zero => intro k r iface _ _; simp [Radvd.genThenAdd]
  | succ n ih =>
    intro k r iface hassigned hk
    have hlen : r.assignedPrefixes.length = k := by
      rw [hassigned, List.length_map, List.length_range]
    have hgen := generatePrefix_ok (r := r) (by omega)
    rw [hlen] at hgen
    have hfresh : radvdPrefixAt r.prefix48 k ∉ r.assignedPrefixes := by
      rw [hassigned]
      intro hmem
      obtain ⟨i, hi, heq⟩ := List.mem_map.mp hmem
      have := radvdPrefixAt_injective r.prefix48 heq
      rw [List.mem_range] at hi
      omega
    cases ha : r.addInterface iface (radvdPrefixAt r.prefix48 k) with
    | error e =>
      exfalso
      unfold Radvd.addInterface at ha
      rw [if_neg hfresh] at ha
      cases ha
    | ok r' =>
      obtain ⟨_, hassigned', hp48⟩ := addInterface_ok_assigned ha
      simp only [Radvd.genThenAdd, hgen, ha]
      have hr' : r'.assignedPrefixes = (List.range (k + 1)).map (radvdPrefixAt r'.prefix48) := by
        rw [hassigned', hassigned, hp48, List.range_succ, List.map_append, List.map_singleton]
      have := ih (k + 1) r' iface hr' (by omega)
      rw [this, hp48, List.range'_succ, List.map_cons]

/-- C1 (claim as stated is FALSE): two consecutive `generate_prefix()` calls with
no `add_interface()` call in between both return
`"fde7:2361:234a:0::/64"`, because the counter is `len(self.assigned_prefixes)`,
which only grows when `add_interface` succeeds.  The issued list of this
two-call sequence (well under 65536 issued prefixes) has a duplicate. -/
theorem c1_generate_prefix_repeats_counterexample :
    Radvd.init "fde7:2361:234a" =
      .ok { prefix48 := "fde7:2361:234a", assignedPrefixes := [], configFile := "" } ∧
    (Radvd.runOps { prefix48 := "fde7:2361:234a", assignedPrefixes := [], configFile := "" }
        [.gen, .gen]).issued =
      ["fde7:2361:234a:0::/64", "fde7:2361:234a:0::/64"] ∧
    ¬ (Radvd.runOps { prefix48 := "fde7:2361:234a", assignedPrefixes := [], configFile := "" }
        [.gen, .gen]).issued.Nodup := by
  have hval : radvdPrefixAt "fde7:2361:234a" 0 = "fde7:2361:234a:0::/64" := by
    unfold radvdPrefixAt
    rw [decimalRepr_zero]
    rfl
  have hgen := generatePrefix_ok
    (r := { prefix48 := "fde7:2361:234a", assignedPrefixes := [], configFile := "" })
    (by simp)
  refine ⟨by rfl, ?_, ?_⟩
  · simp only [Radvd.runOps, hgen]
    simp [hval]
  · simp only [Radvd.runOps, hgen]
    simp

/-- C1 (amended): `add_interface` never accepts the same prefix twice — across any
sequence of `generate_prefix()`/`add_interface()` calls the accepted prefixes are
pairwise distinct; and `generate_prefix()` never repeats a value across up to
65536 calls PROVIDED each generated prefix is registered with `add_interface`
before the next `generate_prefix()` call (without an intervening successful
`add_interface`, `generate_prefix` returns the same value again). -/
theorem c1_prefix_allocator_amended :
    (∀ (r : Radvd) (ops : List RadvdOp), (Radvd.runOps r ops).accepted.Nodup) ∧
    (∀ (p48 iface : String) (n : Nat), n ≤ 65536 →
      (Radvd.genThenAdd ⟨p48, [], ""⟩ iface n).2.length = n ∧
      (Radvd.genThenAdd ⟨p48, [], ""⟩ iface n).2.Nodup) := by
  constructor
  · exact fun r ops => runOps_accepted_nodup ops r
  · intro p48 iface n hn
    have h := genThenAdd_issued n 0 ⟨p48, [], ""⟩ iface (by simp) (by omega)
    rw [h]
    constructor
    · rw [List.length_map, List.length_range']
    · exact List.Nodup.map (radvdPrefixAt_injective p48) (List.nodup_range' 0 n)

/-- Witness for C1 (amended) at a concrete input: three disciplined
generate-then-add rounds from a fresh allocator issue three pairwise-distinct
prefixes. -/
theorem c1_prefix_allocator_amended_witness :
    (Radvd.genThenAdd ⟨"fde7:2361:234a", [], ""⟩ "tincbr-net" 3).2.length = 3 ∧
    (Radvd.genThenAdd ⟨"fde7:2361:234a", [], ""⟩ "tincbr-net" 3).2.Nodup :=
  c1_prefix_allocator_amended.2 "fde7:2361:234a" "tincbr-net" 3 (by decide)

/-! ### `aetherscale/networking.py` — the network topology builder

`Iproute2Network` accumulates two parallel ordered command lists, `creation_commands`
and `deletion_commands`.  `setup_script`/`setup` run the creation commands in
recording order; `teardown_script`/`teardown` run `reversed(self.deletion_commands)`.
`check_device_existence` consults the OS (`ip link show`); it is abstracted as an
environment `env : String → Bool`. -/

/-- Error type standing for Python's `NetworkingException`. -/
inductive NetworkingError where
  | networkingException (msg : String)
deriving Repr, DecidableEq

/-- Character class of `^[a-z0-9-]+$` in `validate_device_name`. -/
def isDeviceChar (c : Char) : Bool :=
  c == '-' || ('a' ≤ c && c ≤ 'z') || ('0' ≤ c && c ≤ '9')

/-- `Iproute2Network.validate_device_name`. -/
def validateDeviceName (name : String) : Except NetworkingError Unit :=
  if name.length = 0 then
    .error (.networkingException "Zero-length device name not allowed")
  else if 15 < name.length then
    .error (.networkingException "Device name must be max. 15 characters")
  else if ¬ name.data.all isDeviceChar then
    .error (.networkingException ("Invalid name for network device provided (\"" ++ name ++ "\")"))
  else
    .ok ()

/-- Character class of `[0-9.:a-f]` in `validate_ip_address`. -/
def isAddrChar (c : Char) : Bool :=
  ('0' ≤ c && c ≤ '9') || c == '.' || c == ':' || ('a' ≤ c && c ≤ 'f')

/-- `Iproute2Network.validate_ip_address`: syntactic check against
`^[0-9.:a-f]+(/\d+)?$` (the char class excludes `/`, so the match is the longest
run of address characters, optionally followed by `/` and one or more digits). -/
def validateIpAddress (ipAddr : String) : Except NetworkingError Unit :=
  let main := ipAddr.data.takeWhile isAddrChar
  let rest := ipAddr.data.drop main.length
  if main ≠ [] ∧
      (rest = [] ∨ (rest.head? = some '/' ∧ rest.tail ≠ [] ∧ rest.tail.all Char.isDigit)) then
    .ok ()
  else
    .error (.networkingException ("Invalid IP address provided (" ++ ipAddr ++ ")"))

/-- State of one `Iproute2Network` builder instance. -/
structure Iproute2Network where
  creationCommands : List (List String)
  deletionCommands : List (List String)
deriving Repr, DecidableEq

/-- `Iproute2Network.__init__`: both command lists start empty. -/
def Iproute2Network.init : Iproute2Network := ⟨[], []⟩

/-- `Iproute2Network.check_device_existence` (validates the name, then asks the
OS; the OS answer is the environment `env`). -/
def checkDeviceExistence (env : String → Bool) (device : String) :
    Except NetworkingError Bool := do
  _ ← validateDeviceName device
  .ok (env device)

/-- `Iproute2Network._create_bridge`. -/
def Iproute2Network.createBridge (env : String → Bool) (s : Iproute2Network)
    (bridgeDevice : String) : Except NetworkingError Iproute2Network := do
  _ ← validateDeviceName bridgeDevice
  let ex ← checkDeviceExistence env bridgeDevice
  if ex then
    .ok s
  else
    .ok { s with
      creationCommands := s.creationCommands ++
        [["sudo", "ip", "link", "add", bridgeDevice, "type", "bridge"],
         ["sudo", "ip", "link", "set", bridgeDevice, "up"]],
      deletionCommands := s.deletionCommands ++
        [["sudo", "ip", "link", "del", bridgeDevice]] }

/-- `Iproute2Network.bridged_network`. -/
def Iproute2Network.bridgedNetwork (env : String → Bool) (s : Iproute2Network)
    (bridgeDevice physDevice : String) (ip gateway : Option String)
    (flushIpDevice : Bool) : Except NetworkingError Iproute2Network := do
  _ ← validateDeviceName bridgeDevice
  _ ← validateDeviceName physDevice
  _ ← match ip with
    | some i => validateIpAddress i
    | none => .ok ()
  _ ← match gateway with
    | some g => validateIpAddress g
    | none => .ok ()
  let s ← s.createBridge env bridgeDevice
  let s := { s with creationCommands := s.creationCommands ++
    [["sudo", "ip", "link", "set", physDevice, "up"],
     ["sudo", "ip", "link", "set", physDevice, "master", bridgeDevice],
     ["sudo", "ip", "addr", "flush", "dev", physDevice]] }
  let s := match ip with
    | some i =>
      let s := if flushIpDevice then
          { s with creationCommands := s.creationCommands ++
            [["sudo", "ip", "addr", "flush", "dev", bridgeDevice]] }
        else s
      { s with creationCommands := s.creationCommands ++
        [["sudo", "ip", "addr", "add", i, "dev", bridgeDevice]] }
    | none => s
  let s := match gateway with
    | some g =>
      { s with
        creationCommands := s.creationCommands ++
          [["sudo", "ip", "route", "add", "default", "via", g, "dev", bridgeDevice]],
        deletionCommands := s.deletionCommands ++
          [["sudo", "ip", "route", "add", "default", "via", g, "dev", physDevice],
           ["sudo", "ip", "route", "del", "default"]] }
    | none => s
  let s := match ip with
    | some i =>
      { s with deletionCommands := s.deletionCommands ++
        [["sudo", "ip", "addr", "add", i, "dev", physDevice]] }
    | none => s
  .ok { s with deletionCommands := s.deletionCommands ++
    [["sudo", "ip", "link", "set", physDevice, "nomaster"]] }

/-- `Iproute2Network.tap_device`. -/
def Iproute2Network.tapDevice (env : String → Bool) (s : Iproute2Network)
    (tapDeviceName user : String) (bridgeDevice : Option String) :
    Except NetworkingError Iproute2Network := do
  _ ← validateDeviceName tapDeviceName
  _ ← match bridgeDevice with
    | some b => validateDeviceName b
    | none => .ok ()
  let ex ← checkDeviceExistence env tapDeviceName
  if ex then
    .ok s
  else
    let s := { s with
      creationCommands := s.creationCommands ++
        [["sudo", "ip", "tuntap", "add", "dev", tapDeviceName, "mode", "tap", "user", user],
         ["sudo", "ip", "link", "set", "dev", tapDeviceName, "up"]],
      deletionCommands := s.deletionCommands ++
        [["sudo", "ip", "link", "del", tapDeviceName]] }
    match bridgeDevice with
    | some b =>
      .ok { s with
        creationCommands := s.creationCommands ++
          [["sudo", "ip", "link", "set", tapDeviceName, "master", b]],
        deletionCommands := s.deletionCommands ++
          [["sudo", "ip", "link", "set", tapDeviceName, "nomaster"]] }
    | none => .ok s

/-- The safe character class of `shlex.quote` (ASCII word chars plus
`@ % + = : , . /` and the dash). -/
def shlexSafeChar (c : Char) : Bool :=
  ('a' ≤ c && c ≤ 'z') || ('A' ≤ c && c ≤ 'Z') || ('0' ≤ c && c ≤ '9') ||
  c == '_' || c == '@' || c == '%' || c == '+' || c == '=' || c == ':' ||
  c == ',' || c == '.' || c == '/' || c == '-'

/-- Python `shlex.quote`. -/
def shlexQuote (s : String) : String :=
  if s.isEmpty then "''"
  else if s.data.all shlexSafeChar then s
  else "'" ++ (s.replace "'" "'\"'\"'") ++ "'"

/-- Python `shlex.join`. -/
def shlexJoin (command : List String) : String :=
  String.intercalate " " (command.map shlexQuote)

/-- `Iproute2Network._to_script`. -/
def toScript (commands : List (List String)) : String :=
  String.intercalate "\n" ("#!/usr/bin/env bash" :: commands.map shlexJoin)

/-- `Iproute2Network.setup_script`. -/
def Iproute2Network.setupScript (s : Iproute2Network) : String :=
  toScript s.creationCommands

/-- `Iproute2Network.teardown_script` — renders `reversed(self.deletion_commands)`. -/
def Iproute2Network.teardownScript (s : Iproute2Network) : String :=
  toScript s.deletionCommands.reverse

/-- `execution.run_command_chain`: run commands in order, stop at the first
failure; `execOk` abstracts each subprocess's exit status. -/
def runCommandChain (execOk : List String → Bool) : List (List String) → Bool
  | [] => true
  | c :: cs => if execOk c then runCommandChain execOk cs else false

/-- `Iproute2Network.setup` (direct execution mode). -/
def Iproute2Network.setup (s : Iproute2Network) (execOk : List String → Bool) : Bool :=
  runCommandChain execOk s.creationCommands

/-- `Iproute2Network.teardown` (direct execution mode) — executes
`reversed(self.deletion_commands)`. -/
def Iproute2Network.teardown (s : Iproute2Network) (execOk : List String → Bool) : Bool :=
  runCommandChain execOk s.deletionCommands.reverse

/-- One high-level request against a builder instance. -/
inductive NetRequest where
  | bridged (bridgeDevice physDevice : String) (ip gateway : Option String)
      (flushIpDevice : Bool)
  | tap (tapDeviceName user : String) (bridgeDevice : Option String)

/-- Dispatch one request to the corresponding builder method. -/
def applyRequest (env : String → Bool) (s : Iproute2Network) :
    NetRequest → Except NetworkingError Iproute2Network
  | .bridged b p ip gw fl => s.bridgedNetwork env b p ip gw fl
  | .tap t u b => s.tapDevice env t u b

/-- Apply a sequence of requests to a builder instance. -/
def applyRequests (env : String → Bool) (s : Iproute2Network) :
    List NetRequest → Except NetworkingError Iproute2Network
  | [] => .ok s
  | req :: reqs => do
    let s' ← applyRequest env s req
    applyRequests env s' reqs

/-- The creation commands `tap_device` records for one request (empty when the
device already exists in the environment). -/
def tapCreationFragment (env : String → Bool) (t user : String) (b : Option String) :
    List (List String) :=
  if env t then []
  else
    [["sudo", "ip", "tuntap", "add", "dev", t, "mode", "tap", "user", user],
     ["sudo", "ip", "link", "set", "dev", t, "up"]] ++
    (match b with
     | some bb => [["sudo", "ip", "link", "set", t, "master", bb]]
     | none => [])

/-- The deletion commands `tap_device` records for one request. -/
def tapDeletionFragment (env : String → Bool) (t : String) (b : Option String) :
    List (List String) :=
  if env t then []
  else
    [["sudo", "ip", "link", "del", t]] ++
    (match b with
     | some _ => [["sudo", "ip", "link", "set", t, "nomaster"]]
     | none => [])

/-- The creation commands `bridged_network` records for one request. -/
def bridgedCreationFragment (env : String → Bool) (bd pd : String)
    (ip gw : Option String) (fl : Bool) : List (List String) :=
  (if env bd then []
   else [["sudo", "ip", "link", "add", bd, "type", "bridge"],
         ["sudo", "ip", "link", "set", bd, "up"]]) ++
  [["sudo", "ip", "link", "set", pd, "up"],
   ["sudo", "ip", "link", "set", pd, "master", bd],
   ["sudo", "ip", "addr", "flush", "dev", pd]] ++
  (match ip with
   | some i =>
     (if fl then [["sudo", "ip", "addr", "flush", "dev", bd]] else []) ++
     [["sudo", "ip", "addr", "add", i, "dev", bd]]
   | none => []) ++
  (match gw with
   | some g => [["sudo", "ip", "route", "add", "default", "via", g, "dev", bd]]
   | none => [])

/-- The deletion commands `bridged_network` records for one request. -/
def bridgedDeletionFragment (env : String → Bool) (bd pd : String)
    (ip gw : Option String) : List (List String) :=
  (if env bd then [] else [["sudo", "ip", "link", "del", bd]]) ++
  (match gw with
   | some g => [["sudo", "ip", "route", "add", "default", "via", g, "dev", pd],
                ["sudo", "ip", "route", "del", "default"]]
   | none => []) ++
  (match ip with
   | some i => [["sudo", "ip", "addr", "add", i, "dev", pd]]
   | none => []) ++
  [["sudo", "ip", "link", "set", pd, "nomaster"]]

/-- The creation commands one request records, in recording order. -/
def creationFragment (env : String → Bool) : NetRequest → List (List String)
  | .bridged bd pd ip gw fl => bridgedCreationFragment env bd pd ip gw fl
  | .tap t u b => tapCreationFragment env t u b

/-- The deletion commands one request records, in recording order. -/
def deletionFragment (env : String → Bool) : NetRequest → List (List String)
  | .bridged bd pd ip gw _ => bridgedDeletionFragment env bd pd ip gw
  | .tap t _ b => tapDeletionFragment env t b

theorem tapDevice_ok {env : String → Bool} {s s' : Iproute2Network}
    {t u : String} {b : Option String}
    (h : s.tapDevice env t u b = .ok s') :
    s'.creationCommands = s.creationCommands ++ tapCreationFragment env t u b ∧
    s'.deletionCommands = s.deletionCommands ++ tapDeletionFragment env t b := by
  unfold Iproute2Network.tapDevice at h
  simp only [bind, Except.bind, checkDeviceExistence] at h
  cases b with
  | none =>
    cases hv : validateDeviceName t <;> simp only [hv] at h
    · cases h
    · split at h <;> rename_i he <;> cases h <;>
        simp [tapCreationFragment, tapDeletionFragment, he]
  | some bb =>
    cases hv : validateDeviceName t <;> simp only [hv] at h
    · cases h
    · cases hb : validateDeviceName bb <;> simp only [hb] at h
      · cases h
      · split at h <;> rename_i he <;> cases h <;>
          simp [tapCreationFragment, tapDeletionFragment, he, List.append_assoc]

theorem createBridge_ok {env : String → Bool} {s s' : Iproute2Network} {bd : String}
    (h : s.createBridge env bd = .ok s') :
    s'.creationCommands = s.creationCommands ++
      (if env bd then []
       else [["sudo", "ip", "link", "add", bd, "type", "bridge"],
             ["sudo", "ip", "link", "set", bd, "up"]]) ∧
    s'.deletionCommands = s.deletionCommands ++
      (if env bd then [] else [["sudo", "ip", "link", "del", bd]]) := by
  unfold Iproute2Network.createBridge at h
  simp only [bind, Except.bind, checkDeviceExistence] at h
  cases hv : validateDeviceName bd <;> simp only [hv] at h
  · cases h
  · split at h <;> rename_i he <;> cases h <;> simp [he]

theorem bridgedNetwork_ok {env : String → Bool} {s s' : Iproute2Network}
    {bd pd : String} {ip gw : Option String} {fl : Bool}
    (h : s.bridgedNetwork env bd pd ip gw fl = .ok s') :
    s'.creationCommands = s.creationCommands ++ bridgedCreationFragment env bd pd ip gw fl ∧
    s'.deletionCommands = s.deletionCommands ++ bridgedDeletionFragment env bd pd ip gw := by
  unfold Iproute2Network.bridgedNetwork at h
  simp only [bind, Except.bind] at h
  cases hv1 : validateDeviceName bd <;> simp only [hv1] at h
  · cases h
  cases hv2 : validateDeviceName pd <;> simp only [hv2] at h
  · cases h
  cases ip with
  | none =>
    cases gw with
    | none =>
      cases hcb : s.createBridge env bd <;> simp only [hcb] at h
      · cases h
      obtain ⟨hcre, hdel⟩ := createBridge_ok hcb
      cases h
      simp [bridgedCreationFragment, bridgedDeletionFragment, hcre, hdel, List.append_assoc]
    | some g =>
      cases hgw : validateIpAddress g <;> simp only [hgw] at h
      · cases h
      cases hcb : s.createBridge env bd <;> simp only [hcb] at h
      · cases h
      obtain ⟨hcre, hdel⟩ := createBridge_ok hcb
      cases h
      simp [bridgedCreationFragment, bridgedDeletionFragment, hcre, hdel, List.append_assoc]
  | some i =>
    cases hip : validateIpAddress i <;> simp only [hip] at h
    · cases h
    cases gw with
    | none =>
      cases hcb : s.createBridge env bd <;> simp only [hcb] at h
      · cases h
      obtain ⟨hcre, hdel⟩ := createBridge_ok hcb
      cases fl <;> cases h <;>
        simp [bridgedCreationFragment, bridgedDeletionFragment, hcre, hdel, List.append_assoc]
    | some g =>
      cases hgw : validateIpAddress g <;> simp only [hgw] at h
      · cases h
      cases hcb : s.createBridge env bd <;> simp only [hcb] at h
      · cases h
      obtain ⟨hcre, hdel⟩ := createBridge_ok hcb
      cases fl <;> cases h <;>
        simp [bridgedCreationFragment, bridgedDeletionFragment, hcre, hdel, List.append_assoc]

theorem applyRequest_ok {env : String → Bool} {s s' : Iproute2Network} {req : NetRequest}
    (h : applyRequest env s req = .ok s') :
    s'.creationCommands = s.creationCommands ++ creationFragment env req ∧
    s'.deletionCommands = s.deletionCommands ++ deletionFragment env req := by
  cases req with
  | bridged bd pd ip gw fl => exact bridgedNetwork_ok h
  | tap t u b => exact tapDevice_ok h

theorem applyRequests_ok :
    ∀ (reqs : List NetRequest) (env : String → Bool) (s s' : Iproute2Network),
      applyRequests env s reqs = .ok s' →
      s'.creationCommands = s.creationCommands ++ (reqs.map (creationFragment env)).flatten ∧
      s'.deletionCommands = s.deletionCommands ++ (reqs.map (deletionFragment env)).flatten := by
  intro reqs
  induction reqs with
  | nil =>
    intro env s s' h
    cases h
    simp [applyRequests]
  | cons req reqs ih =>
    intro env s s' h
    unfold applyRequests at h
    simp only [bind, Except.bind] at h
    cases ha : applyRequest env s req <;> rw [ha] at h
    · cases h
    · rename_i s1
      obtain ⟨h1c, h1d⟩ := applyRequest_ok ha
      obtain ⟨h2c, h2d⟩ := ih env s1 s' h
      rw [h2c, h1c, h2d, h1d]
      simp [List.append_assoc]

/-- C8: for every sequence of bridge/tap/bridged-uplink requests accumulated on
one `Iproute2Network` instance, setup (script or direct execution) runs the
recorded creation commands in recording order, and teardown (script or direct
execution) runs the recorded deletion commands in exactly the reverse of the
order in which they were recorded (the per-request fragments concatenated in
request order, then reversed). -/
theorem c8_teardown_exact_reverse :
    ∀ (env : String → Bool) (reqs : List NetRequest) (s : Iproute2Network),
      applyRequests env Iproute2Network.init reqs = .ok s →
      s.creationCommands = (reqs.map (creationFragment env)).flatten ∧
      s.deletionCommands = (reqs.map (deletionFragment env)).flatten ∧
      s.setupScript = toScript (reqs.map (creationFragment env)).flatten ∧
      s.teardownScript = toScript ((reqs.map (deletionFragment env)).flatten).reverse ∧
      (∀ execOk, s.setup execOk =
        runCommandChain execOk (reqs.map (creationFragment env)).flatten) ∧
      (∀ execOk, s.teardown execOk =
        runCommandChain execOk ((reqs.map (deletionFragment env)).flatten).reverse) := by
  intro env reqs s h
  obtain ⟨hc, hd⟩ := applyRequests_ok reqs env Iproute2Network.init s h
  simp only [Iproute2Network.init, List.nil_append] at hc hd
  refine ⟨hc, hd, ?_, ?_, fun execOk => ?_, fun execOk => ?_⟩ <;>
    simp [Iproute2Network.setupScript, Iproute2Network.teardownScript,
      Iproute2Network.setup, Iproute2Network.teardown, hc, hd]

/-- Device-existence environment for the C8 witness: only `br0` exists. -/
def c8Env : String → Bool := fun d => d == "br0"

/-- Request sequence for the C8 witness: a bridged TAP, a skipped existing
device, and a bridged physical uplink with IP and gateway. -/
def c8Reqs : List NetRequest :=
  [.tap "vpn-abcdefgh" "user1" (some "tincbr-net"),
   .tap "br0" "user1" none,
   .bridged "br1" "eth0" (some "10.0.0.1/24") (some "10.0.0.254") true]

/-- The builder state accumulated by `c8Reqs` under `c8Env`. -/
def c8State : Iproute2Network :=
  { creationCommands :=
      [["sudo", "ip", "tuntap", "add", "dev", "vpn-abcdefgh", "mode", "tap", "user", "user1"],
       ["sudo", "ip", "link", "set", "dev", "vpn-abcdefgh", "up"],
       ["sudo", "ip", "link", "set", "vpn-abcdefgh", "master", "tincbr-net"],
       ["sudo", "ip", "link", "add", "br1", "type", "bridge"],
       ["sudo", "ip", "link", "set", "br1", "up"],
       ["sudo", "ip", "link", "set", "eth0", "up"],
       ["sudo", "ip", "link", "set", "eth0", "master", "br1"],
       ["sudo", "ip", "addr", "flush", "dev", "eth0"],
       ["sudo", "ip", "addr", "flush", "dev", "br1"],
       ["sudo", "ip", "addr", "add", "10.0.0.1/24", "dev", "br1"],
       ["sudo", "ip", "route", "add", "default", "via", "10.0.0.254", "dev", "br1"]],
    deletionCommands :=
      [["sudo", "ip", "link", "del", "vpn-abcdefgh"],
       ["sudo", "ip", "link", "set", "vpn-abcdefgh", "nomaster"],
       ["sudo", "ip", "link", "del", "br1"],
       ["sudo", "ip", "route", "add", "default", "via", "10.0.0.254", "dev", "eth0"],
       ["sudo", "ip", "route", "del", "default"],
       ["sudo", "ip", "addr", "add", "10.0.0.1/24", "dev", "eth0"],
       ["sudo", "ip", "link", "set", "eth0", "nomaster"]] }

/-- Witness for C8 at a concrete input: the three requests above accumulate
`c8State`, whose teardown script renders the deletion fragments reversed and
whose setup script renders the creation fragments in order. -/
theorem c8_teardown_exact_reverse_witness :
    applyRequests c8Env Iproute2Network.init c8Reqs = .ok c8State ∧
    c8State.teardownScript =
      toScript ((c8Reqs.map (deletionFragment c8Env)).flatten).reverse ∧
    c8State.setupScript = toScript (c8Reqs.map (creationFragment c8Env)).flatten :=
  have h : applyRequests c8Env Iproute2Network.init c8Reqs = .ok c8State := by rfl
  ⟨h, (c8_teardown_exact_reverse c8Env c8Reqs c8State h).2.2.2.1,
    (c8_teardown_exact_reverse c8Env c8Reqs c8State h).2.2.1⟩

/-! ### `aetherscale/computing.py` — the VM naming convention -/

/-- `computing.systemd_unit_name_for_vm`. -/
def systemdUnitNameForVm (vmId : String) : String :=
  "aetherscale-vm-" ++ vmId ++ ".service"

/-- Character class `[a-z0-9]` of the unit-name pattern. -/
def isVmIdChar (c : Char) : Bool :=
  ('a' ≤ c && c ≤ 'z') || ('0' ≤ c && c ≤ '9')

/-- `computing.vm_id_from_systemd_unit`:
`re.match` of `aetherscale-vm-([a-z0-9]+)(?:\.service)?` against the unit name,
anchored at the start only.  The group is the maximal run of `[a-z0-9]` after
the literal prefix (the optional `.service` suffix and any trailing text do not
constrain the match); no match raises `ValueError`. -/
def vmIdFromSystemdUnit (systemdUnit : String) : Except String String :=
  if "aetherscale-vm-".data.isPrefixOf systemdUnit.data then
    let run := (systemdUnit.data.drop "aetherscale-vm-".data.length).takeWhile isVmIdChar
    if run.isEmpty then
      .error (systemdUnit ++ " is not a valid systemd unit file for a VM")
    else
      .ok ⟨run⟩
  else
    .error (systemdUnit ++ " is not a valid systemd unit file for a VM")

theorem takeWhile_append_all {p : Char → Bool} :
    ∀ (l1 l2 : List Char), (∀ c ∈ l1, p c) →
      (∀ c, l2.head? = some c → p c = false) →
      (l1 ++ l2).takeWhile p = l1 := by
  intro l1
  induction l1 with
  | nil =>
    intro l2 _ h2
    cases l2 with
    | nil => rfl
    | cons c cs =>
      simp only [List.nil_append, List.takeWhile]
      rw [h2 c rfl]
  | cons c cs ih =>
    intro l2 h1 h2
    simp only [List.cons_append, List.takeWhile]
    rw [h1 c (List.mem_cons_self _ _)]
    simp [ih l2 (fun x hx => h1 x (List.mem_cons_of_mem _ hx)) h2]

/-- C10: the VM naming convention round-trips — for every non-empty `vm_id`
over `[a-z0-9]`, `vm_id_from_systemd_unit(systemd_unit_name_for_vm(vm_id))`
returns exactly `vm_id`. -/
theorem c10_vm_naming_round_trip :
    ∀ (vmId : String), vmId.data ≠ [] → (∀ c ∈ vmId.data, isVmIdChar c) →
      vmIdFromSystemdUnit (systemdUnitNameForVm vmId) = .ok vmId := by
  intro vmId hne hall
  have hdata : (systemdUnitNameForVm vmId).data =
      "aetherscale-vm-".data ++ (vmId.data ++ ".service".data) := by
    simp [systemdUnitNameForVm, String.data_append, List.append_assoc]
  have hpre : "aetherscale-vm-".data.isPrefixOf (systemdUnitNameForVm vmId).data = true := by
    rw [hdata]
    exact List.isPrefixOf_iff_prefix.mpr (List.prefix_append _ _)
  unfold vmIdFromSystemdUnit
  rw [hpre]
  simp only [if_true]
  rw [hdata, List.drop_left]
  rw [takeWhile_append_all vmId.data ".service".data hall (by intro c hc; cases hc; rfl)]
  rw [if_neg (by simpa [List.isEmpty_iff] using hne)]

/-- Witness for C10 at the concrete 8-character id `abcdefgh`. -/
theorem c10_vm_naming_round_trip_witness :
    vmIdFromSystemdUnit (systemdUnitNameForVm "abcdefgh") = .ok "abcdefgh" :=
  c10_vm_naming_round_trip "abcdefgh" (by decide) (by decide)

/-! ### Python exceptions and the supervisor/orchestrator state

The `ServiceManager` capability is an external collaborator (`services.py`
defines the abstract contract; systemd implements it); it is modelled as a
record of installed, running and enabled unit names.  The OS process table
(`psutil`), the disk-image directory and the per-VM resource directories are
further fields of the combined system state. -/

/-- Python exception classes crossing the embedded boundaries. -/
inductive PyErr where
  | valueError (msg : String)
  | runtimeError (msg : String)
  | keyError
  | typeError
  | osError
  | qemuException (msg : String)
  | jsonDecodeError
  | networkingError (msg : String)
  | radvdException (msg : String)
  | vpnException (msg : String)
deriving Repr, DecidableEq

/-- The Process Supervisor capability contract, as state. -/
structure ServiceManagerState where
  installed : List String
  running : List String
  enabled : List String
deriving Repr, DecidableEq

/-- `service_exists(name)`. -/
def serviceExists (s : ServiceManagerState) (name : String) : Bool :=
  name ∈ s.installed

/-- `service_is_running(name)`. -/
def serviceIsRunning (s : ServiceManagerState) (name : String) : Bool :=
  name ∈ s.running

/-- `disable_service(name)`. -/
def disableService (s : ServiceManagerState) (name : String) : ServiceManagerState :=
  { s with enabled := s.enabled.erase name }

/-- `uninstall_service(name)` — unlinks the unit file (`missing_ok=True`). -/
def uninstallService (s : ServiceManagerState) (name : String) : ServiceManagerState :=
  { s with installed := s.installed.erase name }

/-- Combined system state seen by `ComputingHandler`: the supervisor, the OS
process table (process names), the user-image directory (VM ids whose
`<id>.qcow2` exists) and the per-VM private resource directories (VM ids whose
directory exists). -/
structure SysState where
  services : ServiceManagerState
  processes : List String
  userImages : List String
  resourceDirs : List String
deriving Repr, DecidableEq

/-- `stop_service` of a VM unit: the supervisor stops tracking the unit as
running and the hypervisor process disappears from the process table. -/
def stopVmService (st : SysState) (vmId : String) : SysState :=
  { st with
    services := { st.services with
      running := st.services.running.erase (systemdUnitNameForVm vmId) },
    processes := st.processes.erase ("vm-" ++ vmId) }

/-- Response record yielded by the VM lifecycle handlers. -/
structure VmResponse where
  status : String
  vmId : String
  hint : Option String
deriving Repr, DecidableEq

/-- `ComputingHandler.stop_vm`.  `qmp vmId` abstracts the
`QemuMonitor(..., QMP).execute('system_powerdown')` side effect of the graceful
branch (it may raise, e.g. `OSError` when the socket is missing). -/
def stopVm (qmp : String → Except PyErr Unit) (vmId? : Option String) (kill? : Bool)
    (st : SysState) : Except PyErr (VmResponse × SysState) :=
  match vmId? with
  | none => .error (.valueError "VM ID not specified")
  | some vmId =>
    let stopStatus := if kill? then "killed" else "stopped"
    let unitName := systemdUnitNameForVm vmId
    if ¬ serviceExists st.services unitName then
      .error (.runtimeError "VM does not exist")
    else if ¬ serviceIsRunning st.services unitName then
      .ok ({ status := stopStatus, vmId := vmId,
             hint := some ("VM \"" ++ vmId ++ "\" was not running") }, st)
    else
      let st := { st with services := disableService st.services unitName }
      if kill? then
        .ok ({ status := stopStatus, vmId := vmId, hint := none }, stopVmService st vmId)
      else
        match qmp vmId with
        | .error e => .error e
        | .ok _ => .ok ({ status := stopStatus, vmId := vmId, hint := none }, st)

/-- `ComputingHandler.delete_vm`: set `options['kill'] = True`, exhaust
`stop_vm`, uninstall the unit, `user_image.unlink()` (raising `FileNotFoundError`
— an `OSError` — when the image is absent), and yield `deleted`.  No other
filesystem state is touched. -/
def deleteVm (qmp : String → Except PyErr Unit) (vmId? : Option String)
    (st : SysState) : Except PyErr (VmResponse × SysState) :=
  match vmId? with
  | none => .error (.valueError "VM ID not specified")
  | some vmId =>
    match stopVm qmp (some vmId) true st with
    | .error e => .error e
    | .ok (_, st1) =>
      let unitName := systemdUnitNameForVm vmId
      let st2 := { st1 with services := uninstallService st1.services unitName }
      if vmId ∈ st2.userImages then
        .ok ({ status := "deleted", vmId := vmId, hint := none },
          { st2 with userImages := st2.userImages.erase vmId })
      else
        .error .osError

/-- VM ids parsed from the supervisor's unit list (`list_vms` first loop:
units whose name parses via the VM naming convention). -/
def knownVms (st : SysState) : List String :=
  st.services.installed.filterMap (fun s => (vmIdFromSystemdUnit s).toOption)

/-- VM ids of running hypervisor processes (`list_vms` second loop: process
names starting with `vm-`, id from `name[3:]`). -/
def runningVmIds (st : SysState) : List String :=
  (st.processes.filter (fun p => "vm-".data.isPrefixOf p.data)).map
    (fun p => (⟨p.data.drop 3⟩ : String))

/-! ### `aetherscale/qemu/runtime.py` — the hypervisor control-channel client

The guest-agent socket is modelled by its observable behaviour: whether
`connect` succeeds, and the successive lines `readline()` yields (each either
valid JSON or malformed).  An exhausted line list means no data arrives before
the read timeout (`socket.timeout` → `QemuException`). -/

/-- JSON values (the payload of one line-delimited message). -/
inductive JVal where
  | jNull
  | jBool (b : Bool)
  | jNum (n : Int)
  | jStr (s : String)
  | jArr (elems : List JVal)
  | jObj (fields : List (String × JVal))
deriving Repr

/-- One line produced by the server: `json.loads` either succeeds or raises. -/
inductive ServerLine where
  | parsed (v : JVal)
  | malformed
deriving Repr

/-- Observable behaviour of one guest-agent socket. -/
structure GABehavior where
  connectOk : Bool
  lines : List ServerLine
deriving Repr

/-- Items the client writes to the socket, in order. -/
inductive SentItem where
  | sentinelByte
  | command (name : String) (args : Option JVal)
deriving Repr

/-- The message of `QemuMonitor.readline` on `socket.timeout`. -/
def qemuTimeoutMsg : String :=
  "Could not communicate with QEMU, is QMP server or GA running?"

/-- `QemuMonitor._initialize_guest_agent` (as run from `__init__` with a read
timeout): `connect`; send the out-of-band sentinel byte `0xff`; send
`guest-sync` with the random nonce as `id`; read one response line and
`json.loads` it (the value is DISCARDED — it is never compared with the
nonce); then read and `json.loads` one further line (also discarded).
Returns the remaining queued lines and the log of sent items. -/
def initializeGuestAgent (nonce : Int) (b : GABehavior) :
    Except PyErr (List ServerLine) × List SentItem :=
  if ¬ b.connectOk then (.error .osError, [])
  else
    let sent := [SentItem.sentinelByte,
      SentItem.command "guest-sync" (some (.jObj [("id", .jNum nonce)]))]
    match b.lines with
    | [] => (.error (.qemuException qemuTimeoutMsg), sent)
    | .malformed :: _ => (.error .jsonDecodeError, sent)
    | .parsed _ :: rest1 =>
      match rest1 with
      | [] => (.error (.qemuException qemuTimeoutMsg), sent)
      | .malformed :: _ => (.error .jsonDecodeError, sent)
      | .parsed _ :: rest2 => (.ok rest2, sent)

/-- Python subscripting `v[key]` with a string key. -/
def jSubscript (v : JVal) (key : String) : Except PyErr JVal :=
  match v with
  | .jObj fields =>
    match fields.lookup key with
    | some x => .ok x
    | none => .error .keyError
  | _ => .error .typeError

/-- Python iteration `for x in v`: lists yield elements, dicts yield their
keys, strings yield one-character strings; other values raise `TypeError`. -/
def jIterate (v : JVal) : Except PyErr (List JVal) :=
  match v with
  | .jArr l => .ok l
  | .jObj fields => .ok (fields.map (fun kv => JVal.jStr kv.1))
  | .jStr s => .ok (s.data.map (fun c => JVal.jStr ⟨[c]⟩))
  | _ => .error .typeError

/-- Inner loop of `_parse_ips_from_response`: collect `address['ip-address']`
over the addresses of one interface. -/
def collectAddrs : List JVal → Except PyErr (List JVal)
  | [] => .ok []
  | a :: rest => do
    let ip ← jSubscript a "ip-address"
    let more ← collectAddrs rest
    .ok (ip :: more)

/-- Outer loop of `_parse_ips_from_response`: iterate
`interface['ip-addresses']` over all interfaces. -/
def collectInterfaces : List JVal → Except PyErr (List JVal)
  | [] => .ok []
  | i :: rest => do
    let addrsVal ← jSubscript i "ip-addresses"
    let addrs ← jIterate addrsVal
    let ips ← collectAddrs addrs
    let more ← collectInterfaces rest
    .ok (ips ++ more)

/-- `GuestAgentIpAddress._parse_ips_from_response`: the whole loop nest runs
under `try ... except KeyError: return []`; other exceptions (e.g. `TypeError`
from subscripting a non-dict) propagate. -/
def parseIpsFromResponse (response : JVal) : Except PyErr (List JVal) :=
  match (do
      let ret ← jSubscript response "return"
      let interfaces ← jIterate ret
      collectInterfaces interfaces : Except PyErr (List JVal)) with
  | .ok ips => .ok ips
  | .error .keyError => .ok []
  | .error e => .error e

/-- `GuestAgentIpAddress.fetch_ip_addresses`: construct the monitor (running
the guest-agent handshake), `execute('guest-network-get-interfaces')` and
parse the response. -/
def fetchIpAddresses (nonce : Int) (b : GABehavior) : Except PyErr (List JVal) :=
  match (initializeGuestAgent nonce b).1 with
  | .error e => .error e
  | .ok rest =>
    match rest with
    | [] => .error (.qemuException qemuTimeoutMsg)
    | .malformed :: _ => .error .jsonDecodeError
    | .parsed resp :: _ => parseIpsFromResponse resp

/-- One entry of the `list_vms` response.  `ipAddresses = none` means the
`ip-addresses` key is absent (the entry of a non-running VM). -/
structure VmEntry where
  vmId : String
  ipAddresses : Option (List JVal)
  hint : Option String
deriving Repr

/-- Per-VM body of the `list_vms` loop: plain entry for a non-running VM; for a
running VM, best-effort IP fetch where ONLY `QemuException` is downgraded to the
hint — any other exception propagates. -/
def listVmsEntry (nonce : Int) (ga : String → GABehavior) (runningIds : List String)
    (vmId : String) : Except PyErr VmEntry :=
  if vmId ∉ runningIds then
    .ok { vmId := vmId, ipAddresses := none, hint := none }
  else
    match fetchIpAddresses nonce (ga vmId) with
    | .ok ips => .ok { vmId := vmId, ipAddresses := some ips, hint := none }
    | .error (.qemuException _) =>
      .ok { vmId := vmId, ipAddresses := some [],
            hint := some "Could not retrieve IP address for guest" }
    | .error e => .error e

/-- The `list_vms` loop over all known VMs. -/
def listVmsAux (nonce : Int) (ga : String → GABehavior) (runningIds : List String) :
    List String → Except PyErr (List VmEntry)
  | [] => .ok []
  | vmId :: rest => do
    let e ← listVmsEntry nonce ga runningIds vmId
    let es ← listVmsAux nonce ga runningIds rest
    .ok (e :: es)

/-- `ComputingHandler.list_vms`: enumerate descriptors, cross-reference the
process table, and build one entry per known VM (orphan detection only logs). -/
def listVms (nonce : Int) (ga : String → GABehavior) (st : SysState) :
    Except PyErr (List VmEntry) :=
  listVmsAux nonce ga (runningVmIds st) (knownVms st)

/-! ### Claim C4 — the guest-agent handshake -/

/-- A server holding a stale queued reply whose `return` value `999999` differs
from every nonce the client could send. -/
def gaStaleBehavior : GABehavior :=
  { connectOk := true,
    lines := [.parsed (.jObj [("return", .jNum 999999)]), .parsed (.jObj [])] }

/-- C4 (claim as stated is FALSE): the client sends the nonce `123456` but the
initialization succeeds although the server's reply carries `999999` — the
returned value is never compared with the nonce, so a stale queued response is
accepted. -/
theorem c4_nonce_not_checked_counterexample :
    (initializeGuestAgent 123456 gaStaleBehavior).1 = .ok [] ∧
    gaStaleBehavior.lines.head? = some (.parsed (.jObj [("return", .jNum 999999)])) ∧
    (999999 : Int) ≠ 123456 :=
  ⟨rfl, rfl, by decide⟩

/-- C4 (amended): on connect the client sends one out-of-band sentinel byte and
then a `guest-sync` command carrying the nonce, and consumes two response
lines; but it does NOT require the nonce back — initialization succeeds for any
two parseable response lines, whatever they contain. -/
theorem c4_sentinel_then_sync_no_nonce_check :
    ∀ (nonce : Int) (v1 v2 : JVal) (rest : List ServerLine),
      initializeGuestAgent nonce ⟨true, .parsed v1 :: .parsed v2 :: rest⟩ =
        (.ok rest,
         [SentItem.sentinelByte,
          SentItem.command "guest-sync" (some (.jObj [("id", .jNum nonce)]))]) := by
  intro nonce v1 v2 rest
  rfl

/-! ### Claim C5 — best-effort IP queries in `list_vms` -/

/-- A state with one known, running VM. -/
def c5BadState : SysState :=
  { services := { installed := ["aetherscale-vm-abcdefgh.service"],
                  running := ["aetherscale-vm-abcdefgh.service"], enabled := [] },
    processes := ["vm-abcdefgh"],
    userImages := ["abcdefgh"],
    resourceDirs := ["abcdefgh"] }

/-- A guest-agent socket whose `connect` fails (socket file missing or refused:
`OSError`, not `QemuException`). -/
def c5RefusedGa : String → GABehavior := fun _ => ⟨false, []⟩

/-- C5 (claim as stated is FALSE): with one known running VM whose guest-agent
socket refuses the connection, `list_vms` raises `OSError` instead of returning
the list — only `QemuException` is downgraded to the hint field. -/
theorem c5_listing_aborts_counterexample :
    listVms 123456 c5RefusedGa c5BadState = .error .osError := rfl

/-- The guest-agent query outcomes that `list_vms` survives: success, or a
failure signalled as `QemuException` (the socket read timeout). -/
def fetchBenign (nonce : Int) (b : GABehavior) : Prop :=
  match fetchIpAddresses nonce b with
  | .ok _ => True
  | .error (.qemuException _) => True
  | .error _ => False

/-- The entry `list_vms` builds for one VM when its query outcome is benign. -/
def vmEntryFor (nonce : Int) (ga : String → GABehavior) (runningIds : List String)
    (vmId : String) : VmEntry :=
  if vmId ∉ runningIds then
    { vmId := vmId, ipAddresses := none, hint := none }
  else
    match fetchIpAddresses nonce (ga vmId) with
    | .ok ips => { vmId := vmId, ipAddresses := some ips, hint := none }
    | .error _ => { vmId := vmId, ipAddresses := some [],
                    hint := some "Could not retrieve IP address for guest" }

theorem listVmsEntry_benign {nonce : Int} {ga : String → GABehavior}
    {runningIds : List String} {v : String} (hv : fetchBenign nonce (ga v)) :
    listVmsEntry nonce ga runningIds v = .ok (vmEntryFor nonce ga runningIds v) := by
  unfold fetchBenign at hv
  unfold listVmsEntry vmEntryFor
  by_cases hrun : v ∉ runningIds
  · simp [hrun]
  · cases hf : fetchIpAddresses nonce (ga v) with
    | ok ips => simp [hrun, hf]
    | error e =>
      rw [hf] at hv
      cases e <;>
        first
          | exact hv.elim
          | simp [hrun, hf]

theorem listVmsAux_benign (nonce : Int) (ga : String → GABehavior)
    (runningIds : List String) :
    ∀ (vms : List String), (∀ v ∈ vms, fetchBenign nonce (ga v)) →
      listVmsAux nonce ga runningIds vms =
        .ok (vms.map (vmEntryFor nonce ga runningIds)) := by
  intro vms
  induction vms with
  | nil => intro _; rfl
  | cons v rest ih =>
    intro hb
    have hv := hb v (List.mem_cons_self _ _)
    have hrest := ih (fun x hx => hb x (List.mem_cons_of_mem _ hx))
    simp only [listVmsAux, bind, Except.bind, List.map_cons]
    rw [listVmsEntry_benign hv, hrest]

/-- C5 (amended): `list_vms` returns the full VM list whenever every running
VM's guest-agent query either succeeds or fails with `QemuException` (the read
timeout); such a failure becomes the non-fatal hint with an empty address
list.  (A `connect` failure — `OSError` — or a malformed JSON line —
`JSONDecodeError` — is NOT caught and aborts the listing, as the
counterexample shows.) -/
theorem c5_listing_best_effort_amended :
    ∀ (nonce : Int) (ga : String → GABehavior) (st : SysState),
      (∀ v, fetchBenign nonce (ga v)) →
      listVms nonce ga st =
        .ok ((knownVms st).map (vmEntryFor nonce ga (runningVmIds st))) := by
  intro nonce ga st hb
  exact listVmsAux_benign nonce ga (runningVmIds st) (knownVms st) (fun v _ => hb v)

/-- A guest agent that answers with one IP address for VM `aaaaaaaa` and times
out for every other VM. -/
def c5GoodGa : String → GABehavior := fun v =>
  if v = "aaaaaaaa" then
    { connectOk := true,
      lines := [.parsed (.jObj [("return", .jNum 0)]), .parsed .jNull,
        .parsed (.jObj [("return", .jArr [.jObj [("ip-addresses",
          .jArr [.jObj [("ip-address", .jStr "10.0.0.5")]])]])])] }
  else
    { connectOk := true, lines := [] }

/-- A state with two known VMs, both running. -/
def c5TwoVmState : SysState :=
  { services := { installed := ["aetherscale-vm-aaaaaaaa.service",
                                "aetherscale-vm-bbbbbbbb.service"],
                  running := ["aetherscale-vm-aaaaaaaa.service",
                              "aetherscale-vm-bbbbbbbb.service"], enabled := [] },
    processes := ["vm-aaaaaaaa", "vm-bbbbbbbb"],
    userImages := ["aaaaaaaa", "bbbbbbbb"],
    resourceDirs := ["aaaaaaaa", "bbbbbbbb"] }

/-- Witness for C5 (amended) at a concrete input: one VM answers with an
address, the other times out and gets the hint; the listing succeeds and covers
both VMs. -/
theorem c5_listing_best_effort_amended_witness :
    listVms 123456 c5GoodGa c5TwoVmState =
      .ok [{ vmId := "aaaaaaaa", ipAddresses := some [.jStr "10.0.0.5"], hint := none },
           { vmId := "bbbbbbbb", ipAddresses := some [],
             hint := some "Could not retrieve IP address for guest" }] := by
  have hb : ∀ v, fetchBenign 123456 (c5GoodGa v) := by
    intro v
    by_cases hv : v = "aaaaaaaa"
    · subst hv
      exact trivial
    · unfold c5GoodGa
      rw [if_neg hv]
      exact trivial
  rw [c5_listing_best_effort_amended 123456 c5GoodGa c5TwoVmState hb]
  rfl

/-! ### Claim C3 — `vm_info` (spec-modelled) -/

/-- Response of `vm_info`. -/
structure VmInfoResponse where
  vmId : String
  status : String
deriving Repr, DecidableEq

/-- Modelled from the spec: `ComputingHandler.vm_info` is absent from `src/`
(`api/rest.py` calls it and `tests/test_api_rest.py` mocks it, but
`computing.py` does not define it); modelled from spec §4.1: "`vm_info({vm-id})`:
fails NotFound if no descriptor exists; else returns coarse status
{running|stopped} from the supervisor". `NotFound` is `RuntimeError`, as in
`start_vm`/`stop_vm`, which is what the REST layer catches. -/
def vmInfo (vmId? : Option String) (st : SysState) : Except PyErr VmInfoResponse :=
  match vmId? with
  | none => .error (.valueError "VM ID not specified")
  | some vmId =>
    let unitName := systemdUnitNameForVm vmId
    if ¬ serviceExists st.services unitName then
      .error (.runtimeError "VM does not exist")
    else
      .ok { vmId := vmId,
            status := if serviceIsRunning st.services unitName then "running" else "stopped" }

/-- Result of the REST `vm_info` route. -/
inductive RestResponse where
  | ok (r : VmInfoResponse)
  | notFound (body : String)
deriving Repr, DecidableEq

/-- `api/rest.py` route `GET /vm/<vm_id>`: call `handler.vm_info({'vm-id': vm_id})`,
mapping `RuntimeError` to a 404 with body `VM does not exist`; any other
exception propagates. -/
def restVmInfo (vmId : String) (st : SysState) : Except PyErr RestResponse :=
  match vmInfo (some vmId) st with
  | .ok r => .ok (.ok r)
  | .error (.runtimeError _) => .ok (.notFound "VM does not exist")
  | .error e => .error e

/-- C3: `vm_info` fails NotFound exactly when no descriptor exists for the id
(the REST layer turning that into a 404), and otherwise reports `running` or
`stopped` exactly as the supervisor does. -/
theorem c3_vm_info_status :
    ∀ (st : SysState) (vmId : String),
      (serviceExists st.services (systemdUnitNameForVm vmId) = false →
        vmInfo (some vmId) st = .error (.runtimeError "VM does not exist") ∧
        restVmInfo vmId st = .ok (.notFound "VM does not exist")) ∧
      (serviceExists st.services (systemdUnitNameForVm vmId) = true →
        ∃ r, vmInfo (some vmId) st = .ok r ∧
          restVmInfo vmId st = .ok (.ok r) ∧
          r.vmId = vmId ∧
          (r.status = "running" ↔ serviceIsRunning st.services (systemdUnitNameForVm vmId)) ∧
          (r.status = "stopped" ↔ ¬ serviceIsRunning st.services (systemdUnitNameForVm vmId))) := by
  intro st vmId
  constructor
  · intro hex
    have h1 : vmInfo (some vmId) st = .error (.runtimeError "VM does not exist") := by
      unfold vmInfo
      simp [hex]
    exact ⟨h1, by unfold restVmInfo; rw [h1]⟩
  · intro hex
    by_cases hrun : serviceIsRunning st.services (systemdUnitNameForVm vmId)
    · refine ⟨{ vmId := vmId, status := "running" }, ?_, ?_, rfl, ?_, ?_⟩
      · unfold vmInfo; simp [hex, hrun]
      · unfold restVmInfo vmInfo; simp [hex, hrun]
      · simp [hrun]
      · simp [hrun]
    · refine ⟨{ vmId := vmId, status := "stopped" }, ?_, ?_, rfl, ?_, ?_⟩
      · unfold vmInfo; simp [hex, hrun]
      · unfold restVmInfo vmInfo; simp [hex, hrun]
      · simp [hrun]
      · simp [hrun]

/-- Witness for C3 at concrete inputs: in `c5TwoVmState`, an unknown id is
NotFound and a known running id reports `running`. -/
theorem c3_vm_info_status_witness :
    vmInfo (some "zzzzzzzz") c5TwoVmState = .error (.runtimeError "VM does not exist") ∧
    restVmInfo "zzzzzzzz" c5TwoVmState = .ok (.notFound "VM does not exist") ∧
    vmInfo (some "aaaaaaaa") c5TwoVmState = .ok { vmId := "aaaaaaaa", status := "running" } := by
  refine ⟨((c3_vm_info_status c5TwoVmState "zzzzzzzz").1 (by decide)).1,
    ((c3_vm_info_status c5TwoVmState "zzzzzzzz").1 (by decide)).2, ?_⟩
  obtain ⟨r, hr, _, hid, hrun, _⟩ :=
    (c3_vm_info_status c5TwoVmState "aaaaaaaa").2 (by decide)
  have : r = { vmId := "aaaaaaaa", status := "running" } := by
    have hs : r.status = "running" := hrun.mpr (by decide)
    cases r
    simp_all
  rw [hr, this]

/-! ### Claim C9 — `stop_vm` idempotence -/

/-- Two successive `stop_vm` calls with the same options, the second running on
the state the first one left behind. -/
def stopVmTwice (qmp : String → Except PyErr Unit) (vmId? : Option String)
    (kill? : Bool) (st : SysState) :
    Except PyErr (VmResponse × VmResponse × SysState) :=
  match stopVm qmp vmId? kill? st with
  | .error e => .error e
  | .ok (r1, st1) =>
    match stopVm qmp vmId? kill? st1 with
    | .error e => .error e
    | .ok (r2, st2) => .ok (r1, r2, st2)

/-- C9: on a known, stopped VM, calling `stop_vm` twice succeeds both times
with the same stop status (`killed` when `kill` is set, else `stopped`), both
calls carry the "was not running" hint, and no supervisor state changes. -/
theorem c9_stop_vm_idempotent :
    ∀ (qmp : String → Except PyErr Unit) (st : SysState) (vmId : String) (kill? : Bool),
      serviceExists st.services (systemdUnitNameForVm vmId) = true →
      serviceIsRunning st.services (systemdUnitNameForVm vmId) = false →
      ∃ r, stopVmTwice qmp (some vmId) kill? st = .ok (r, r, st) ∧
        r.status = (if kill? then "killed" else "stopped") ∧
        r.hint = some ("VM \"" ++ vmId ++ "\" was not running") := by
  intro qmp st vmId kill? hex hrun
  refine ⟨{ status := if kill? then "killed" else "stopped", vmId := vmId,
            hint := some ("VM \"" ++ vmId ++ "\" was not running") }, ?_, rfl, rfl⟩
  unfold stopVmTwice stopVm
  simp [hex, hrun]

/-- Witness for C9 at a concrete input: VM `abcdefgh` is installed but not
running; both kill-stop calls succeed with the hint and identical state. -/
theorem c9_stop_vm_idempotent_witness :
    ∃ r, stopVmTwice (fun _ => .ok ())
        (some "abcdefgh") true
        { services := { installed := ["aetherscale-vm-abcdefgh.service"],
                        running := [], enabled := [] },
          processes := [], userImages := ["abcdefgh"], resourceDirs := ["abcdefgh"] } =
      .ok (r, r,
        { services := { installed := ["aetherscale-vm-abcdefgh.service"],
                        running := [], enabled := [] },
          processes := [], userImages := ["abcdefgh"], resourceDirs := ["abcdefgh"] }) ∧
      r.status = (if true then "killed" else "stopped") ∧
      r.hint = some ("VM \"" ++ "abcdefgh" ++ "\" was not running") :=
  c9_stop_vm_idempotent (fun _ => .ok ()) _ "abcdefgh" true (by decide) (by decide)

/-! ### Claim C2 — `delete_vm` -/

/-- A monitor channel that always accepts the graceful power-down (unused by
the kill path). -/
def noQmp : String → Except PyErr Unit := fun _ => .ok ()

/-- A state with one known, stopped VM owning a descriptor, a disk image and a
private resource directory. -/
def c2State : SysState :=
  { services := { installed := ["aetherscale-vm-abcdefgh.service"],
                  running := [], enabled := [] },
    processes := [], userImages := ["abcdefgh"], resourceDirs := ["abcdefgh"] }

/-- C2 (claim as stated is FALSE): `delete_vm` on the known VM `abcdefgh`
succeeds, removes the descriptor and the disk image — but the private resource
directory survives untouched (`delete_vm` contains no directory removal at
all), contradicting "none of descriptor, disk image, or resource directory
remains". -/
theorem c2_resource_dir_remains_counterexample :
    deleteVm noQmp (some "abcdefgh") c2State =
      .ok ({ status := "deleted", vmId := "abcdefgh", hint := none },
        { services := { installed := [], running := [], enabled := [] },
          processes := [], userImages := [], resourceDirs := ["abcdefgh"] }) := by
  rfl

/-- C2 (amended): for every known VM id with an existing disk image,
`delete_vm` forces a kill-stop, removes the process descriptor and deletes the
disk image, after which the VM is not running and `list_vms` no longer reports
the id — but the VM's private resource directory is left exactly as it was
(it is never removed). -/
theorem c2_delete_vm_amended :
    ∀ (qmp : String → Except PyErr Unit) (st : SysState) (vmId : String),
      st.services.installed.Nodup →
      st.services.running.Nodup →
      st.userImages.Nodup →
      systemdUnitNameForVm vmId ∈ st.services.installed →
      vmId ∈ st.userImages →
      ∃ r st',
        deleteVm qmp (some vmId) st = .ok (r, st') ∧
        r.status = "deleted" ∧
        systemdUnitNameForVm vmId ∉ st'.services.installed ∧
        vmId ∉ st'.userImages ∧
        st'.resourceDirs = st.resourceDirs ∧
        serviceIsRunning st'.services (systemdUnitNameForVm vmId) = false ∧
        ((∀ u ∈ st.services.installed,
            (vmIdFromSystemdUnit u).toOption = some vmId → u = systemdUnitNameForVm vmId) →
          vmId ∉ knownVms st') := by
  intro qmp st vmId hni hnr hnu hmemu hmemi
  have hex : serviceExists st.services (systemdUnitNameForVm vmId) = true := by
    simp [serviceExists, hmemu]
  by_cases hrun : serviceIsRunning st.services (systemdUnitNameForVm vmId) = true
  · -- running: kill branch stops the unit, then descriptor and image are removed
    refine ⟨{ status := "deleted", vmId := vmId, hint := none },
      { services := { installed := st.services.installed.erase (systemdUnitNameForVm vmId),
                      running := st.services.running.erase (systemdUnitNameForVm vmId),
                      enabled := st.services.enabled.erase (systemdUnitNameForVm vmId) },
        processes := st.processes.erase ("vm-" ++ vmId),
        userImages := st.userImages.erase vmId,
        resourceDirs := st.resourceDirs }, ?_, rfl, ?_, ?_, rfl, ?_, ?_⟩
    · unfold deleteVm stopVm
      simp only [hex, hrun, Bool.not_true, if_false, Bool.false_eq_true, if_true]
      simp [stopVmService, uninstallService, disableService, hmemi]
    · simp [List.Nodup.mem_erase_iff hni]
    · simp [List.Nodup.mem_erase_iff hnu]
    · simp [serviceIsRunning, List.Nodup.mem_erase_iff hnr]
    · intro huniq hmem
      unfold knownVms at hmem
      obtain ⟨u, hu, hpu⟩ := List.mem_filterMap.mp hmem
      simp only at hu
      have hu' := List.mem_of_mem_erase hu
      have := huniq u hu' hpu
      subst this
      exact ((List.Nodup.mem_erase_iff hni).mp hu).1 rfl
  · -- not running: the kill-stop is a no-op with hint, the rest is identical
    refine ⟨{ status := "deleted", vmId := vmId, hint := none },
      { services := { installed := st.services.installed.erase (systemdUnitNameForVm vmId),
                      running := st.services.running,
                      enabled := st.services.enabled },
        processes := st.processes,
        userImages := st.userImages.erase vmId,
        resourceDirs := st.resourceDirs }, ?_, rfl, ?_, ?_, rfl, ?_, ?_⟩
    · unfold deleteVm stopVm
      simp only [hex, hrun, Bool.not_true, if_false, Bool.false_eq_true, if_true]
      simp [uninstallService, hmemi, hrun]
    · simp [List.Nodup.mem_erase_iff hni]
    · simp [List.Nodup.mem_erase_iff hnu]
    · simpa [serviceIsRunning] using hrun
    · intro huniq hmem
      unfold knownVms at hmem
      obtain ⟨u, hu, hpu⟩ := List.mem_filterMap.mp hmem
      simp only at hu
      have hu' := List.mem_of_mem_erase hu
      have := huniq u hu' hpu
      subst this
      exact ((List.Nodup.mem_erase_iff hni).mp hu).1 rfl

/-- Witness for C2 (amended) at a concrete input: deleting the known, running
VM `abcdefgh`. -/
theorem c2_delete_vm_amended_witness :
    ∃ r st',
      deleteVm noQmp (some "abcdefgh")
        { services := { installed := ["aetherscale-vm-abcdefgh.service"],
                        running := ["aetherscale-vm-abcdefgh.service"], enabled := [] },
          processes := ["vm-abcdefgh"], userImages := ["abcdefgh"],
          resourceDirs := ["abcdefgh"] } = .ok (r, st') ∧
      r.status = "deleted" ∧
      systemdUnitNameForVm "abcdefgh" ∉ st'.services.installed ∧
      "abcdefgh" ∉ st'.userImages ∧
      st'.resourceDirs = ["abcdefgh"] ∧
      serviceIsRunning st'.services (systemdUnitNameForVm "abcdefgh") = false ∧
      True := by
  obtain ⟨r, st', h1, h2, h3, h4, h5, h6, _⟩ :=
    c2_delete_vm_amended noQmp
      { services := { installed := ["aetherscale-vm-abcdefgh.service"],
                      running := ["aetherscale-vm-abcdefgh.service"], enabled := [] },
        processes := ["vm-abcdefgh"], userImages := ["abcdefgh"],
        resourceDirs := ["abcdefgh"] }
      "abcdefgh" (by decide) (by decide) (by decide) (by decide) (by decide)
  exact ⟨r, st', h1, h2, h3, h4, h5, h6, trivial⟩

/-! ### `aetherscale/api/broker.py` — the command-dispatch boundary

`callback` decodes the body, looks up `data['command']` in the fixed handler
table, runs the handler generator forwarding each yielded response as a
success envelope, turns a raised exception into the error envelope, and acks.
A missing or unknown command is only logged (`return` before any envelope and
before `basic_ack`); a body that is not valid JSON raises out of the callback. -/

/-- One reply envelope published by the dispatcher. -/
inductive Envelope where
  | success (response : JVal)
  | failure (reason : String)
deriving Repr

/-- Inbound message body: valid JSON carrying an optional `command` key and
`options` (defaulted to the empty dict), or a body `json.loads` rejects. -/
inductive MsgBody where
  | notJson
  | json (command : Option String) (options : JVal)

/-- What running one handler generator to exhaustion observes: the responses
yielded before the generator either finishes or raises `e` (`str(e)` kept). -/
structure HandlerRun where
  responses : List JVal
  raises : Option String

/-- The command table of `callback` (`broker.py` and `computing.py` agree). -/
def knownCommands : List String :=
  ["list-vms", "create-vm", "start-vm", "stop-vm", "delete-vm"]

/-- `callback`: returns the envelopes published and whether `basic_ack` ran;
an undecodable body raises. -/
def brokerCallback (handler : String → JVal → HandlerRun) :
    MsgBody → Except PyErr (List Envelope × Bool)
  | .notJson => .error .jsonDecodeError
  | .json none _ => .ok ([], false)
  | .json (some cmd) opts =>
    if cmd ∈ knownCommands then
      let run := handler cmd opts
      .ok (run.responses.map Envelope.success ++
        (match run.raises with
         | some e => [Envelope.failure e]
         | none => []), true)
    else
      .ok ([], false)

/-- A handler table that never yields and never raises. -/
def quietHandler : String → JVal → HandlerRun := fun _ _ => ⟨[], none⟩

/-- C7 (claim as stated is FALSE): a message with no `command` key and a
message with an unknown command are dropped with NO reply envelope (and no
ack), and a body that is not valid JSON raises out of the callback — so not
every failure becomes the `{status: error, reason}` envelope. -/
theorem c7_missing_command_no_envelope_counterexample :
    brokerCallback quietHandler (.json none (.jObj [])) = .ok ([], false) ∧
    brokerCallback quietHandler (.json (some "frobnicate") (.jObj [])) = .ok ([], false) ∧
    brokerCallback quietHandler .notJson = .error .jsonDecodeError :=
  ⟨rfl, rfl, rfl⟩

/-- C7 (amended): an exception raised by a dispatched handler is caught and
becomes the final `{status: error, reason}` envelope, after the success
envelopes of the responses already yielded, and the callback still acks —
one bad command cannot crash the dispatcher once dispatch has happened.  But a
missing or unknown command is logged and dropped with no envelope and no ack,
and a non-JSON body raises out of the callback. -/
theorem c7_dispatch_error_envelope_amended :
    ∀ (handler : String → JVal → HandlerRun) (cmd : String) (opts : JVal),
      (cmd ∈ knownCommands →
        ∃ envs acked, brokerCallback handler (.json (some cmd) opts) = .ok (envs, acked) ∧
          acked = true ∧
          (∀ e, (handler cmd opts).raises = some e →
            envs.getLast? = some (.failure e)) ∧
          ((handler cmd opts).raises = none →
            envs = (handler cmd opts).responses.map Envelope.success)) ∧
      (cmd ∉ knownCommands →
        brokerCallback handler (.json (some cmd) opts) = .ok ([], false)) ∧
      brokerCallback handler (.json none opts) = .ok ([], false) ∧
      brokerCallback handler .notJson = .error .jsonDecodeError := by
  intro handler cmd opts
  refine ⟨?_, ?_, rfl, rfl⟩
  · intro hknown
    refine ⟨(handler cmd opts).responses.map Envelope.success ++
      (match (handler cmd opts).raises with
       | some e => [Envelope.failure e]
       | none => []), true, ?_, rfl, ?_, ?_⟩
    · simp only [brokerCallback]
      rw [if_pos hknown]
    · intro e he
      rw [he]
      simp
    · intro hnone
      rw [hnone]
      simp
  · intro hunknown
    simp only [brokerCallback]
    rw [if_neg hunknown]

/-- Witness for C7 (amended) at a concrete input: a `stop-vm` handler that
yields one response and then raises produces the success envelope followed by
the error envelope and acks. -/
theorem c7_dispatch_error_envelope_amended_witness :
    ∃ envs acked,
      brokerCallback (fun _ _ => ⟨[.jStr "partial"], some "VM does not exist"⟩)
        (.json (some "stop-vm") (.jObj [])) = .ok (envs, acked) ∧
      acked = true ∧
      envs.getLast? = some (.failure "VM does not exist") := by
  obtain ⟨envs, acked, h1, h2, h3, _⟩ :=
    ((c7_dispatch_error_envelope_amended
      (fun _ _ => ⟨[.jStr "partial"], some "VM does not exist"⟩)
      "stop-vm" (.jObj [])).1 (by decide))
  exact ⟨envs, acked, h1, h2, h3 "VM does not exist" rfl⟩

/-! ### `aetherscale/vpn/tinc.py` and `ComputingHandler._establish_vpn`

`TincVirtualNetwork.__init__(self, netname, port, service_manager)` takes three
positional arguments after `self`.  `_establish_vpn` however calls
`TincVirtualNetwork(vpn_name, config.VPN_CONFIG_FOLDER, vpn_port,
self.service_manager)` — four positional arguments — so the construction of a
NEW overlay always raises `TypeError`.  Python call binding is embedded as a
function on the positional-argument list. -/

/-- The tinc overlay object (the fields `_establish_vpn` reads). -/
structure TincVirtualNetwork where
  netname : String
  port : Nat
deriving Repr, DecidableEq

/-- `TincVirtualNetwork.interface_name`. -/
def TincVirtualNetwork.interfaceName (v : TincVirtualNetwork) : String :=
  "tinc-" ++ v.netname

/-- `TincVirtualNetwork.bridge_interface_name`. -/
def TincVirtualNetwork.bridgeInterfaceName (v : TincVirtualNetwork) : String :=
  "tincbr-" ++ v.netname

/-- `TincVirtualNetwork._validate_netname`: `^[a-z0-9]+$` and length at most 8. -/
def tincValidateNetname (netname : String) : Bool :=
  if ¬ (netname.data ≠ [] ∧ netname.data.all isVmIdChar) then false
  else if 8 < netname.length then false
  else true

/-- Python values crossing the `TincVirtualNetwork(...)` call boundary. -/
inductive PyValue where
  | pyStr (s : String)
  | pyNat (n : Nat)
  | pyPath (p : String)
  | pyServiceManager
deriving Repr, DecidableEq

/-- The positional call `TincVirtualNetwork(*args)`: `__init__` binds exactly
`(netname, port, service_manager)` after `self`, so any other argument count
raises `TypeError`; a three-argument call validates the netname
(`ValueError` on failure) and constructs the object. -/
def callTincVirtualNetwork (args : List PyValue) : Except PyErr TincVirtualNetwork :=
  match args with
  | [.pyStr netname, .pyNat port, .pyServiceManager] =>
    if tincValidateNetname netname then
      .ok { netname := netname, port := port }
    else
      .error (.valueError ("Invalid name for network provided (\"" ++ netname ++ "\")"))
  | _ => .error .typeError

/-- The VPN-related state owned by one `ComputingHandler`. -/
structure VpnState where
  radvd : Radvd
  establishedVpns : List (String × TincVirtualNetwork)
  availableVpnPorts : List Nat
  installedServices : List String
deriving Repr, DecidableEq

/-- `computing.setup_tap_device`: build a fresh `Iproute2Network`, request the
bridged TAP and render both scripts (written to the VM's resource folder). -/
def setupTapDevice (env : String → Bool) (user tapName bridge : String) :
    Except PyErr (String × String) :=
  match (Iproute2Network.init).tapDevice env tapName user (some bridge) with
  | .error (.networkingException m) => .error (.networkingError m)
  | .ok s => .ok (s.setupScript, s.teardownScript)

/-- `ComputingHandler._establish_vpn`: generate an IPv6 prefix, reuse the
overlay when registered, else pop a port from the pool (`KeyError` when
exhausted) and construct the overlay — a call that supplies FOUR positional
arguments to the three-parameter `TincVirtualNetwork.__init__` and therefore
raises `TypeError`.  The remainder of the new-overlay branch (config, keypair,
bridge/tap setup-teardown scripts, daemon with pre-start/post-stop hooks,
registration, radvd) is embedded after the call even though the call makes it
unreachable.  Whether new or reused, a per-VM TAP `vpn-<vm_id>` bridged onto
the overlay's bridge is created last.  `startOk` abstracts the daemon start
outcome; `env` the existing network devices. -/
def establishVpn (env : String → Bool) (user : String) (startOk : Bool)
    (vpnName vmId : String) (st : VpnState) :
    Except PyErr (String × VpnState) :=
  match st.radvd.generatePrefix with
  | .error (.radvdException m) => .error (.radvdException m)
  | .ok vpnNetworkPfx =>
    match st.establishedVpns.lookup vpnName with
    | some vpn =>
      match setupTapDevice env user ("vpn-" ++ vmId) vpn.bridgeInterfaceName with
      | .error e => .error e
      | .ok _ => .ok ("vpn-" ++ vmId, st)
    | none =>
      match st.availableVpnPorts with
      | [] => .error .keyError
      | port :: restPorts =>
        match callTincVirtualNetwork
            [.pyStr vpnName, .pyPath "VPN_CONFIG_FOLDER", .pyNat port,
             .pyServiceManager] with
        | .error e => .error e
        | .ok vpn =>
          let hostVpnIp := vpnNetworkPfx.replace "/64" "1"
          match (Iproute2Network.init).tapDevice env vpn.interfaceName user none with
          | .error (.networkingException m) => .error (.networkingError m)
          | .ok s1 =>
            match s1.bridgedNetwork env vpn.bridgeInterfaceName vpn.interfaceName
                (some hostVpnIp) none false with
            | .error (.networkingException m) => .error (.networkingError m)
            | .ok _ =>
              if ¬ startOk then
                .error (.vpnException ("Could not establish VPN \"" ++ vpnName ++ "\""))
              else
                match st.radvd.addInterface vpn.bridgeInterfaceName vpnNetworkPfx with
                | .error (.radvdException m) => .error (.radvdException m)
                | .ok radvd' =>
                  match setupTapDevice env user ("vpn-" ++ vmId)
                      vpn.bridgeInterfaceName with
                  | .error e => .error e
                  | .ok _ =>
                    .ok ("vpn-" ++ vmId,
                      { radvd := radvd',
                        establishedVpns := st.establishedVpns ++ [(vpnName, vpn)],
                        availableVpnPorts := restPorts,
                        installedServices := st.installedServices ++
                          ["aetherscale-tincd-" ++ vpnName ++ ".service"] })

/-- A fresh handler VPN state: no overlays yet, two ports in the pool. -/
def c6FreshState : VpnState :=
  { radvd := { prefix48 := "fde7:2361:234a", assignedPrefixes := [], configFile := "" },
    establishedVpns := [],
    availableVpnPorts := [50000, 50001],
    installedServices := [] }

/-- The same state with overlay `testnet` already registered. -/
def c6ReuseState : VpnState :=
  { c6FreshState with
    establishedVpns := [("testnet", { netname := "testnet", port := 50000 })] }

/-- No network device exists yet. -/
def c6Env : String → Bool := fun _ => false

/-- C6 (code bug): establishing a NEW overlay always raises `TypeError`,
because `_establish_vpn` passes four positional arguments
(`vpn_name, config.VPN_CONFIG_FOLDER, vpn_port, self.service_manager`) to
`TincVirtualNetwork.__init__`, which accepts only
`(netname, port, service_manager)` — so no keypair, config or daemon is ever
created.  Only the reuse branch works: with `testnet` already registered,
`establish` returns the fresh per-VM TAP `vpn-abcdefgh` and leaves the
registry, port pool and radvd state unchanged. -/
theorem c6_establish_new_overlay_type_error :
    establishVpn c6Env "user1" true "testnet" "abcdefgh" c6FreshState =
      .error .typeError ∧
    establishVpn c6Env "user1" true "testnet" "abcdefgh" c6ReuseState =
      .ok ("vpn-abcdefgh", c6ReuseState) :=
  ⟨rfl, rfl⟩

end Aetherscale
